import Mathlib

/-!
Shallow embedding of the pose-overlay facade of `play_with_tflite`
(`pj_tflite_pose_movenet/image_processor/image_processor.cpp`, together with the
data model declared in `pose_engine.h`).

The drawing primitives of OpenCV are modelled as an emitted command list: a
frame is mutated exactly by the commands the facade emits.  C++ `float` scores
and coordinates are modelled as rationals, and the `float` to `int32_t`
conversion as truncation toward zero.  The per-branch `-1` returns of the C++
facade are told apart by the distinct branches (their `PRINT_E` messages), as
an `ErrKind` error value.
-/

set_option maxRecDepth 4000

/-- Truncation toward zero: the semantics of the C++ conversion of a `float`
coordinate to `int32_t` (as in `int32_t x0 = part_list[jointLine.first].first;`). -/
def truncQ (q : ℚ) : ℤ := if 0 ≤ q then ⌊q⌋ else ⌈q⌉

/-- `PoseEngine::Result` from `pose_engine.h`: per-body scores, per-body
per-part keypoint scores, per-body per-part `(x, y)` coordinates (documented
there as `0 - 1.0`), and the three timing values. -/
structure PoseEngine.Result where
  pose_scores : List ℚ
  pose_keypoint_scores : List (List ℚ)
  pose_keypoint_coords : List (List (ℚ × ℚ))
  time_pre_process : ℚ
  time_inference : ℚ
  time_post_process : ℚ

/-- A drawing primitive applied to the frame: `cv::line`, `cv::circle`, or the
FPS/latency text drawn by `DrawFps`. -/
inductive DrawCmd where
  | line (x0 y0 x1 y1 : ℤ)
  | circle (x y : ℤ)
  | fpsText

deriving instance DecidableEq for DrawCmd

/-- Does a command draw a joint-line segment? -/
def DrawCmd.isLine : DrawCmd → Bool
  | DrawCmd.line _ _ _ _ => true
  | _ => false

/-- Does a command draw a filled keypoint marker? -/
def DrawCmd.isCircle : DrawCmd → Bool
  | DrawCmd.circle _ _ => true
  | _ => false

/-- `constexpr float score_threshold = 0.2F;` -/
def score_threshold : ℚ := mkRat 1 5

/-- The static joint-line topology table `jointLineList` of
`image_processor.cpp` (face, body, arm, leg). -/
def jointLineList : List (ℕ × ℕ) :=
  [(0, 2), (2, 4), (0, 1), (1, 3),
   (6, 5), (5, 11), (11, 12), (12, 6),
   (6, 8), (8, 10), (5, 7), (7, 9),
   (12, 14), (14, 16), (11, 13), (13, 15)]

/-- One iteration of the joint-line loop of `ImageProcessor::Process`: read the
two endpoint scores (the second only if the first clears the threshold, as the
C++ `&&` short-circuits), and if both clear it, read the two endpoint
coordinates and draw the segment.  `none` is the out-of-bounds error branch of
the embedding: the C++ indexes the vectors unchecked. -/
def lineCmd (score_list : List ℚ) (part_list : List (ℚ × ℚ)) (jointLine : ℕ × ℕ) :
    Option (List DrawCmd) :=
  match score_list.get? jointLine.1 with
  | none => none
  | some s0 =>
    if s0 ≥ score_threshold then
      match score_list.get? jointLine.2 with
      | none => none
      | some s1 =>
        if s1 ≥ score_threshold then
          match part_list.get? jointLine.1, part_list.get? jointLine.2 with
          | some p0, some p1 =>
            some [DrawCmd.line (truncQ p0.1) (truncQ p0.2) (truncQ p1.1) (truncQ p1.2)]
          | _, _ => none
        else some []
    else some []

/-- One iteration of the marker loop of `ImageProcessor::Process`: read the
score of keypoint `i` and, if it clears the threshold, read its coordinates and
draw a filled circle. -/
def markerCmd (score_list : List ℚ) (part_list : List (ℚ × ℚ)) (i : ℕ) :
    Option (List DrawCmd) :=
  match score_list.get? i with
  | none => none
  | some score =>
    if score ≥ score_threshold then
      match part_list.get? i with
      | none => none
      | some p => some [DrawCmd.circle (truncQ p.1) (truncQ p.2)]
    else some []

/-- The joint-line loop: `for (const auto& jointLine : jointLineList)`. -/
def drawLines (score_list : List ℚ) (part_list : List (ℚ × ℚ)) :
    List (ℕ × ℕ) → Option (List DrawCmd)
  | [] => some []
  | jointLine :: rest =>
    match lineCmd score_list part_list jointLine with
    | none => none
    | some cmds =>
      match drawLines score_list part_list rest with
      | none => none
      | some more => some (cmds ++ more)

/-- The marker loop: `for (int32_t i = 0; i < part_num; i++)`. -/
def drawMarkers (score_list : List ℚ) (part_list : List (ℚ × ℚ)) :
    List ℕ → Option (List DrawCmd)
  | [] => some []
  | i :: rest =>
    match markerCmd score_list part_list i with
    | none => none
    | some cmds =>
      match drawMarkers score_list part_list rest with
      | none => none
      | some more => some (cmds ++ more)

/-- The drawing part of `ImageProcessor::Process`: take body 0's score list and
coordinate list (unchecked `[0]` indexing), run the joint-line loop over the
static table, then the marker loop over `part_num = part_list.size()` indices.
`none` is the error branch of the embedding: some unchecked C++ indexing was
out of bounds. -/
def processDraw (pose_result : PoseEngine.Result) : Option (List DrawCmd) :=
  match pose_result.pose_keypoint_scores.get? 0, pose_result.pose_keypoint_coords.get? 0 with
  | some score_list, some part_list =>
    match drawLines score_list part_list jointLineList,
          drawMarkers score_list part_list (List.range part_list.length) with
    | some lines, some markers => some (lines ++ markers)
    | _, _ => none
  | _, _ => none

/-- The gate of the joint-line pass: both endpoint scores clear the threshold. -/
def linePass (score_list : List ℚ) (e : ℕ × ℕ) : Bool :=
  decide (score_list.getD e.1 0 ≥ score_threshold) &&
    decide (score_list.getD e.2 0 ≥ score_threshold)

/-- The gate of the marker pass: the keypoint's own score clears the threshold. -/
def markerPass (score_list : List ℚ) (i : ℕ) : Bool :=
  decide (score_list.getD i 0 ≥ score_threshold)

/-- The segment drawn for edge `e` when its gate passes. -/
def lineOf (part_list : List (ℚ × ℚ)) (e : ℕ × ℕ) : DrawCmd :=
  DrawCmd.line (truncQ (part_list.getD e.1 (0, 0)).1) (truncQ (part_list.getD e.1 (0, 0)).2)
    (truncQ (part_list.getD e.2 (0, 0)).1) (truncQ (part_list.getD e.2 (0, 0)).2)

/-- The marker drawn for keypoint `i` when its gate passes. -/
def circleOf (part_list : List (ℚ × ℚ)) (i : ℕ) : DrawCmd :=
  DrawCmd.circle (truncQ (part_list.getD i (0, 0)).1) (truncQ (part_list.getD i (0, 0)).2)

/-- The error kinds of the facade, one per distinct `-1` return site of
`image_processor.cpp` (told apart in the C++ source by the `PRINT_E` messages
and the failing callee), plus the embedding's error branch for the unchecked
indexing. -/
inductive ErrKind where
  | notInitialized
  | alreadyInitialized
  | unsupportedCommand
  | engineInitFailed
  | engineFinalizeFailed
  | engineProcessFailed
  | outOfBoundsAccess

/-- Modelled from the spec: the lifecycle of a `PoseEngine` instance
(`pose_engine.cpp` is not part of the excerpt; only the declaration in
`pose_engine.h` is).  Section 4.2: `initialize -> (repeated invoke) ->
finalize`; a fresh instance is not yet initialized. -/
inductive EngineLifecycle where
  | fresh
  | ready
  | finalized

/-- The process-wide state of the facade: the single
`std::unique_ptr<PoseEngine> s_pose_engine` (which is null, or owns an engine
in some lifecycle state). -/
structure FacadeState where
  s_pose_engine : Option EngineLifecycle

/-- Modelled from the spec: `PoseEngine::Initialize` (`pose_engine.cpp` is
missing from the excerpt).  Per section 4.2 it loads the model and configures
the adapter; it can fail on the environment (missing/unreadable/incompatible
model file, abstracted as `env_ok = false`), and calling it twice without an
intervening finalize fails.  Returns the new lifecycle state and whether it
returned `kRetOk`. -/
def PoseEngine.Initialize (st : EngineLifecycle) (env_ok : Bool) : EngineLifecycle × Bool :=
  match st, env_ok with
  | EngineLifecycle.fresh, true => (EngineLifecycle.ready, true)
  | EngineLifecycle.fresh, false => (EngineLifecycle.fresh, false)
  | _, _ => (st, false)

/-- Modelled from the spec: `PoseEngine::Finalize` (`pose_engine.cpp` is
missing from the excerpt).  Per section 4.2 it releases the adapter and
descriptors, and fails if called before initialize (or after the adapter was
already released). -/
def PoseEngine.Finalize (st : EngineLifecycle) : EngineLifecycle × Bool :=
  match st with
  | EngineLifecycle.ready => (EngineLifecycle.finalized, true)
  | _ => (st, false)

/-- Modelled from the spec: whether `PoseEngine::Process` returns `kRetOk`
(`pose_engine.cpp` is missing from the excerpt).  Per section 4.2 it fails if
the engine is not initialized, and may otherwise fail on the environment
(pre-processing or adapter fault, abstracted as `env_ok`). -/
def PoseEngine.Process (st : EngineLifecycle) (env_ok : Bool) : Bool :=
  match st with
  | EngineLifecycle.ready => env_ok
  | _ => false

/-- `ImageProcessor::Result`: the three timing values copied back to the
caller. -/
structure ImageProcessor.Result where
  time_pre_process : ℚ
  time_inference : ℚ
  time_post_process : ℚ

/-- `ImageProcessor::Initialize`: rejects a second initialize while
`s_pose_engine` is non-null; otherwise creates a fresh engine, stores it, and
runs the engine's initialize.  On engine failure the `-1` return leaves the
newly created engine in `s_pose_engine` (the C++ does not reset the pointer). -/
def ImageProcessor.Initialize (st : FacadeState) (env_ok : Bool) :
    FacadeState × Except ErrKind Unit :=
  match st.s_pose_engine with
  | some _ => (st, Except.error ErrKind.alreadyInitialized)
  | none =>
    let r := PoseEngine.Initialize EngineLifecycle.fresh env_ok
    if r.2 then (⟨some r.1⟩, Except.ok ())
    else (⟨some r.1⟩, Except.error ErrKind.engineInitFailed)

/-- `ImageProcessor::Finalize`: fails when `s_pose_engine` is null; otherwise
runs the engine's finalize.  In either outcome the pointer is retained (the
C++ never resets `s_pose_engine`). -/
def ImageProcessor.Finalize (st : FacadeState) : FacadeState × Except ErrKind Unit :=
  match st.s_pose_engine with
  | none => (st, Except.error ErrKind.notInitialized)
  | some e =>
    let r := PoseEngine.Finalize e
    if r.2 then (⟨some r.1⟩, Except.ok ())
    else (⟨some r.1⟩, Except.error ErrKind.engineFinalizeFailed)

/-- `ImageProcessor::Command`: fails when `s_pose_engine` is null; otherwise
every command code falls into the `case 0: default:` rejection. -/
def ImageProcessor.Command (st : FacadeState) (cmd : ℤ) : FacadeState × Except ErrKind Unit :=
  match st.s_pose_engine with
  | none => (st, Except.error ErrKind.notInitialized)
  | some _ => (st, Except.error ErrKind.unsupportedCommand)

/-- `ImageProcessor::Process`: fails when `s_pose_engine` is null; then runs
the engine (whose would-be output when it succeeds is the `pose_result`
argument), and on engine failure returns `-1` before any drawing.  On success
it draws the joint-lines, the markers and the FPS text onto the frame and
copies the three timings into the returned result.  The emitted command list
is the frame mutation: an empty list means the frame's pixels are unchanged. -/
def ImageProcessor.Process (st : FacadeState) (env_ok : Bool) (pose_result : PoseEngine.Result) :
    FacadeState × Except ErrKind ImageProcessor.Result × List DrawCmd :=
  match st.s_pose_engine with
  | none => (st, Except.error ErrKind.notInitialized, [])
  | some e =>
    if PoseEngine.Process e env_ok then
      match processDraw pose_result with
      | none => (st, Except.error ErrKind.outOfBoundsAccess, [])
      | some cmds =>
        (st,
         Except.ok ⟨pose_result.time_pre_process, pose_result.time_inference,
           pose_result.time_post_process⟩,
         cmds ++ [DrawCmd.fpsText])
    else (st, Except.error ErrKind.engineProcessFailed, [])

/-- All 17 keypoint scores zero (below the threshold). -/
def sAllZero : List ℚ := List.replicate 17 0

/-- All 17 keypoint coordinates at the origin. -/
def pAllZero : List (ℚ × ℚ) := List.replicate 17 (0, 0)

/-- An engine result with one body, all scores below the threshold. -/
def rAllZero : PoseEngine.Result := ⟨[], [sAllZero], [pAllZero], 0, 0, 0⟩

/-- Scores with keypoint 0 confident and all others below the threshold. -/
def sCenter : List ℚ := 1 :: List.replicate 16 0

/-- All 17 keypoints at the normalized frame center `(0.5, 0.5)`. -/
def pCenter : List (ℚ × ℚ) := List.replicate 17 (mkRat 1 2, mkRat 1 2)

/-- An engine result with one body whose keypoint 0 sits at normalized
`(0.5, 0.5)` with a confident score. -/
def rCenter : PoseEngine.Result := ⟨[], [sCenter], [pCenter], 0, 0, 0⟩

/-- Scores clearing the threshold exactly at the adjacent joints 0 and 2. -/
def sTwoAdj : List ℚ := [1, 0, 1, 0, 0, 0, 0, 0, 0, 0, 0, 0, 0, 0, 0, 0, 0]

/-- An engine result with one body whose joints 0 and 2 (adjacent in the
topology table) clear the threshold and all others do not. -/
def rTwoAdj : PoseEngine.Result := ⟨[], [sTwoAdj], [pAllZero], 0, 0, 0⟩

/-- 18 coordinates: one more coordinate than the 17 scores. -/
def pLong : List (ℚ × ℚ) := List.replicate 18 (0, 0)

/-- An engine result with one body, 17 scores but 18 coordinates. -/
def rMismatch : PoseEngine.Result := ⟨[], [sAllZero], [pLong], 0, 0, 0⟩

/-- Every joint index in the topology table is below 17 (helper fact shared by
the proofs below). -/
theorem jointLineList_indices_lt : ∀ e ∈ jointLineList, e.1 < 17 ∧ e.2 < 17 := by decide

/-- An in-bounds `get?` is `some` of the `getD` value. -/
theorem get?_eq_some_getD {α : Type} (l : List α) (n : ℕ) (d : α) (h : n < l.length) :
    l.get? n = some (l.getD n d) := by
  rw [List.getD_eq_get?]
  cases hg : l.get? n with
  | none =>
    rw [List.get?_eq_none] at hg
    omega
  | some a => rfl

/-- In-bounds characterization of one joint-line iteration. -/
theorem lineCmd_eq (s : List ℚ) (p : List (ℚ × ℚ)) (e : ℕ × ℕ)
    (h1 : e.1 < s.length) (h2 : e.2 < s.length) (h3 : e.1 < p.length) (h4 : e.2 < p.length) :
    lineCmd s p e = some (if linePass s e then [lineOf p e] else []) := by
  have hs1 := get?_eq_some_getD s e.1 0 h1
  have hs2 := get?_eq_some_getD s e.2 0 h2
  have hp1 := get?_eq_some_getD p e.1 (0, 0) h3
  have hp2 := get?_eq_some_getD p e.2 (0, 0) h4
  simp only [lineCmd, hs1, hs2, hp1, hp2]
  by_cases c1 : s.getD e.1 0 ≥ score_threshold
  · by_cases c2 : s.getD e.2 0 ≥ score_threshold
    · have hb : linePass s e = true := by
        simp only [linePass, Bool.and_eq_true, decide_eq_true_eq]
        exact ⟨c1, c2⟩
      rw [if_pos c1, if_pos c2, if_pos hb]
      simp only [lineOf]
    · have hb : ¬ linePass s e = true := by
        simp only [linePass, Bool.and_eq_true, decide_eq_true_eq]
        exact fun hc => c2 hc.2
      rw [if_pos c1, if_neg c2, if_neg hb]
  · have hb : ¬ linePass s e = true := by
      simp only [linePass, Bool.and_eq_true, decide_eq_true_eq]
      exact fun hc => c1 hc.1
    rw [if_neg c1, if_neg hb]

/-- In-bounds characterization of one marker iteration. -/
theorem markerCmd_eq (s : List ℚ) (p : List (ℚ × ℚ)) (i : ℕ)
    (h1 : i < s.length) (h2 : i < p.length) :
    markerCmd s p i = some (if markerPass s i then [circleOf p i] else []) := by
  have hs := get?_eq_some_getD s i 0 h1
  have hp := get?_eq_some_getD p i (0, 0) h2
  simp only [markerCmd, hs, hp]
  by_cases c : s.getD i 0 ≥ score_threshold
  · have hb : markerPass s i = true := by
      simp only [markerPass, decide_eq_true_eq]
      exact c
    rw [if_pos c, if_pos hb]
    simp only [circleOf]
  · have hb : ¬ markerPass s i = true := by
      simp only [markerPass, decide_eq_true_eq]
      exact c
    rw [if_neg c, if_neg hb]

/-- The joint-line loop draws exactly the table edges whose gate passes. -/
theorem drawLines_eq (s : List ℚ) (p : List (ℚ × ℚ)) :
    ∀ L : List (ℕ × ℕ),
      (∀ e ∈ L, e.1 < s.length ∧ e.2 < s.length ∧ e.1 < p.length ∧ e.2 < p.length) →
      drawLines s p L = some ((L.filter (linePass s)).map (lineOf p)) := by
  intro L
  induction L with
  | nil => intro _; rfl
  | cons e rest ih =>
    intro h
    obtain ⟨h1, h2, h3, h4⟩ := h e (List.mem_cons_self e rest)
    have hrest := ih (fun x hx => h x (List.mem_cons_of_mem e hx))
    have hcmd := lineCmd_eq s p e h1 h2 h3 h4
    cases hc : linePass s e with
    | true =>
      rw [if_pos hc] at hcmd
      simp only [drawLines]
      rw [hcmd, hrest, List.filter_cons, if_pos hc, List.map_cons]
      rfl
    | false =>
      have hnc : ¬ linePass s e = true := by
        rw [hc]
        exact Bool.false_ne_true
      rw [if_neg hnc] at hcmd
      simp only [drawLines]
      rw [hcmd, hrest, List.filter_cons, if_neg hnc]
      rfl

/-- The marker loop draws exactly the indices whose gate passes. -/
theorem drawMarkers_eq (s : List ℚ) (p : List (ℚ × ℚ)) :
    ∀ L : List ℕ,
      (∀ i ∈ L, i < s.length ∧ i < p.length) →
      drawMarkers s p L = some ((L.filter (markerPass s)).map (circleOf p)) := by
  intro L
  induction L with
  | nil => intro _; rfl
  | cons i rest ih =>
    intro h
    obtain ⟨h1, h2⟩ := h i (List.mem_cons_self i rest)
    have hrest := ih (fun x hx => h x (List.mem_cons_of_mem i hx))
    have hcmd := markerCmd_eq s p i h1 h2
    cases hc : markerPass s i with
    | true =>
      rw [if_pos hc] at hcmd
      simp only [drawMarkers]
      rw [hcmd, hrest, List.filter_cons, if_pos hc, List.map_cons]
      rfl
    | false =>
      have hnc : ¬ markerPass s i = true := by
        rw [hc]
        exact Bool.false_ne_true
      rw [if_neg hnc] at hcmd
      simp only [drawMarkers]
      rw [hcmd, hrest, List.filter_cons, if_neg hnc]
      rfl

/-- Full characterization of the drawing pass of `ImageProcessor::Process`,
under bounds that keep every unchecked C++ indexing in range. -/
theorem processDraw_eq (r : PoseEngine.Result) (s : List ℚ) (p : List (ℚ × ℚ))
    (hs : r.pose_keypoint_scores.get? 0 = some s)
    (hp : r.pose_keypoint_coords.get? 0 = some p)
    (hs17 : 17 ≤ s.length) (hp17 : 17 ≤ p.length) (hps : p.length ≤ s.length) :
    processDraw r = some (((jointLineList.filter (linePass s)).map (lineOf p))
      ++ (((List.range p.length).filter (markerPass s)).map (circleOf p))) := by
  have h1 := drawLines_eq s p jointLineList (fun e he =>
    ⟨lt_of_lt_of_le (jointLineList_indices_lt e he).1 hs17,
     lt_of_lt_of_le (jointLineList_indices_lt e he).2 hs17,
     lt_of_lt_of_le (jointLineList_indices_lt e he).1 hp17,
     lt_of_lt_of_le (jointLineList_indices_lt e he).2 hp17⟩)
  have h2 := drawMarkers_eq s p (List.range p.length) (fun i hi =>
    ⟨lt_of_lt_of_le (List.mem_range.mp hi) hps, List.mem_range.mp hi⟩)
  simp only [processDraw, hs, hp]
  rw [h1, h2]

/-- Every drawn segment counts as a line. -/
theorem countP_map_lineOf (p : List (ℚ × ℚ)) :
    ∀ L : List (ℕ × ℕ), (L.map (lineOf p)).countP DrawCmd.isLine = L.length := by
  intro L
  induction L with
  | nil => rfl
  | cons e rest ih => simp [List.countP_cons, ih, lineOf, DrawCmd.isLine]

/-- No drawn segment counts as a marker. -/
theorem countP_map_lineOf_isCircle (p : List (ℚ × ℚ)) :
    ∀ L : List (ℕ × ℕ), (L.map (lineOf p)).countP DrawCmd.isCircle = 0 := by
  intro L
  induction L with
  | nil => rfl
  | cons e rest ih => simp [List.countP_cons, ih, lineOf, DrawCmd.isCircle]

/-- Every drawn marker counts as a circle. -/
theorem countP_map_circleOf (p : List (ℚ × ℚ)) :
    ∀ L : List ℕ, (L.map (circleOf p)).countP DrawCmd.isCircle = L.length := by
  intro L
  induction L with
  | nil => rfl
  | cons i rest ih => simp [List.countP_cons, ih, circleOf, DrawCmd.isCircle]

/-- No drawn marker counts as a line. -/
theorem countP_map_circleOf_isLine (p : List (ℚ × ℚ)) :
    ∀ L : List ℕ, (L.map (circleOf p)).countP DrawCmd.isLine = 0 := by
  intro L
  induction L with
  | nil => rfl
  | cons i rest ih => simp [List.countP_cons, ih, circleOf, DrawCmd.isLine]

/-- Claim C8: the static joint-line topology table has exactly 16 edges and
every joint index in it lies in `[0, 17)`, the model's fixed joint count. -/
theorem joint_line_table_shape :
    jointLineList.length = 16
    ∧ (jointLineList.all fun e => decide (e.1 < 17) && decide (e.2 < 17)) = true := by
  decide

/-- Claim C7: `ImageProcessor::Command` never returns OK for any command code:
with a live engine (in particular in the Ready state) every code is rejected
as unsupported, and with no engine it is rejected as not initialized. -/
theorem command_never_ok (cmd : ℤ) (e : EngineLifecycle) :
    ImageProcessor.Command ⟨some e⟩ cmd = (⟨some e⟩, Except.error ErrKind.unsupportedCommand)
    ∧ ImageProcessor.Command ⟨none⟩ cmd = (⟨none⟩, Except.error ErrKind.notInitialized) :=
  ⟨rfl, rfl⟩

/-- Claim C10: a failed `ImageProcessor::Initialize` (the engine's own
initialize failed) still retains the newly created engine, so a later
initialize is rejected as already initialized, and later `Process` and
`Finalize` calls fail with engine errors rather than the not-initialized
error. -/
theorem failed_init_retains_engine (env : Bool) (r : PoseEngine.Result) :
    ImageProcessor.Initialize ⟨none⟩ false
      = (⟨some EngineLifecycle.fresh⟩, Except.error ErrKind.engineInitFailed)
    ∧ ImageProcessor.Initialize ⟨some EngineLifecycle.fresh⟩ env
      = (⟨some EngineLifecycle.fresh⟩, Except.error ErrKind.alreadyInitialized)
    ∧ ImageProcessor.Process ⟨some EngineLifecycle.fresh⟩ env r
      = (⟨some EngineLifecycle.fresh⟩, Except.error ErrKind.engineProcessFailed, [])
    ∧ ImageProcessor.Finalize ⟨some EngineLifecycle.fresh⟩
      = (⟨some EngineLifecycle.fresh⟩, Except.error ErrKind.engineFinalizeFailed) :=
  ⟨rfl, rfl, rfl, rfl⟩

/-- Claim C3 (amended): `Process` on an uninitialized session fails as not
initialized and emits no drawing command (the frame's pixels are unchanged);
on a finalized session the engine pointer is retained, so `Process` fails with
the engine-process error, not the not-initialized error, again emitting no
drawing command. -/
theorem process_uninitialized_vs_finalized (env : Bool) (r : PoseEngine.Result) :
    ImageProcessor.Process ⟨none⟩ env r = (⟨none⟩, Except.error ErrKind.notInitialized, [])
    ∧ ImageProcessor.Process ⟨some EngineLifecycle.finalized⟩ env r
      = (⟨some EngineLifecycle.finalized⟩, Except.error ErrKind.engineProcessFailed, []) :=
  ⟨rfl, rfl⟩

/-- Claim C3, counterexample to the claim as stated: after a successful
`Finalize`, `Process` does not return the not-initialized error; it returns
the engine-process error (the frame is still left unchanged). -/
theorem process_after_finalize_error_kind :
    ImageProcessor.Finalize ⟨some EngineLifecycle.ready⟩
      = (⟨some EngineLifecycle.finalized⟩, Except.ok ())
    ∧ ImageProcessor.Process ⟨some EngineLifecycle.finalized⟩ true rAllZero
      = (⟨some EngineLifecycle.finalized⟩, Except.error ErrKind.engineProcessFailed, []) :=
  ⟨rfl, rfl⟩

/-- Claim C2, counterexample to the claim as stated: `Initialize` succeeds
from the empty state and `Finalize` succeeds, yet the following `Initialize`
fails with the already-initialized error instead of succeeding, because the
facade never resets `s_pose_engine`. -/
theorem facade_reinit_after_finalize_fails :
    ImageProcessor.Initialize ⟨none⟩ true = (⟨some EngineLifecycle.ready⟩, Except.ok ())
    ∧ ImageProcessor.Finalize ⟨some EngineLifecycle.ready⟩
      = (⟨some EngineLifecycle.finalized⟩, Except.ok ())
    ∧ ImageProcessor.Initialize ⟨some EngineLifecycle.finalized⟩ true
      = (⟨some EngineLifecycle.finalized⟩, Except.error ErrKind.alreadyInitialized) :=
  ⟨rfl, rfl, rfl⟩

/-- Claim C2 (amended): after any successful `Finalize` the engine instance is
retained, so the facade does not return to the uninitialized state: the next
`Initialize` is rejected as already initialized, `Process` fails with the
engine-process error, and `Command` is rejected as unsupported — none of them
fails as not-initialized. -/
theorem finalize_retains_engine_state (st st' : FacadeState) (env : Bool)
    (r : PoseEngine.Result) (cmd : ℤ)
    (h : ImageProcessor.Finalize st = (st', Except.ok ())) :
    st' = ⟨some EngineLifecycle.finalized⟩
    ∧ ImageProcessor.Initialize st' env = (st', Except.error ErrKind.alreadyInitialized)
    ∧ ImageProcessor.Process st' env r = (st', Except.error ErrKind.engineProcessFailed, [])
    ∧ ImageProcessor.Command st' cmd = (st', Except.error ErrKind.unsupportedCommand) := by
  obtain ⟨eng⟩ := st
  have hst : st' = ⟨some EngineLifecycle.finalized⟩ := by
    cases eng with
    | none => exact Except.noConfusion (congrArg Prod.snd h)
    | some e =>
      cases e with
      | fresh => exact Except.noConfusion (congrArg Prod.snd h)
      | finalized => exact Except.noConfusion (congrArg Prod.snd h)
      | ready => exact (congrArg Prod.fst h).symm
  subst hst
  exact ⟨rfl, rfl, rfl, rfl⟩

/-- Witness for C2's amended theorem at a concrete finalize of a ready
session. -/
theorem finalize_retains_engine_state_witness :
    (⟨some EngineLifecycle.finalized⟩ : FacadeState) = ⟨some EngineLifecycle.finalized⟩
    ∧ ImageProcessor.Initialize ⟨some EngineLifecycle.finalized⟩ true
      = (⟨some EngineLifecycle.finalized⟩, Except.error ErrKind.alreadyInitialized)
    ∧ ImageProcessor.Process ⟨some EngineLifecycle.finalized⟩ true rAllZero
      = (⟨some EngineLifecycle.finalized⟩, Except.error ErrKind.engineProcessFailed, [])
    ∧ ImageProcessor.Command ⟨some EngineLifecycle.finalized⟩ 0
      = (⟨some EngineLifecycle.finalized⟩, Except.error ErrKind.unsupportedCommand) :=
  finalize_retains_engine_state ⟨some EngineLifecycle.ready⟩ ⟨some EngineLifecycle.finalized⟩
    true rAllZero 0 rfl

/-- Claim C6: a second `Initialize` without an intervening `Finalize` is
rejected as already initialized and leaves the facade state untouched, and the
first session remains usable: a `Process` on the ready session succeeds and
draws its commands. -/
theorem second_init_rejected_first_usable (env : Bool) (r : PoseEngine.Result)
    (cmds : List DrawCmd) (h : processDraw r = some cmds) :
    ImageProcessor.Initialize ⟨some EngineLifecycle.ready⟩ env
      = (⟨some EngineLifecycle.ready⟩, Except.error ErrKind.alreadyInitialized)
    ∧ ImageProcessor.Process ⟨some EngineLifecycle.ready⟩ true r
      = (⟨some EngineLifecycle.ready⟩,
         Except.ok ⟨r.time_pre_process, r.time_inference, r.time_post_process⟩,
         cmds ++ [DrawCmd.fpsText]) := by
  constructor
  · rfl
  · simp only [ImageProcessor.Process, PoseEngine.Process, h]
    rfl

/-- Witness for C6 at the all-below-threshold result. -/
theorem second_init_rejected_first_usable_witness :
    ImageProcessor.Initialize ⟨some EngineLifecycle.ready⟩ true
      = (⟨some EngineLifecycle.ready⟩, Except.error ErrKind.alreadyInitialized)
    ∧ ImageProcessor.Process ⟨some EngineLifecycle.ready⟩ true rAllZero
      = (⟨some EngineLifecycle.ready⟩,
         Except.ok ⟨rAllZero.time_pre_process, rAllZero.time_inference,
           rAllZero.time_post_process⟩,
         [] ++ [DrawCmd.fpsText]) :=
  second_init_rejected_first_usable true rAllZero [] (by decide)

/-- Claim C1, evidence of the code bug: the facade passes the engine's
normalized coordinates straight to the draw call without scaling by the frame
dimensions (its drawing pass does not even take the frame size as an input),
so the confident keypoint at normalized `(0.5, 0.5)` is drawn at pixel
`(0, 0)` — not at `(W/2, H/2)`. -/
theorem draw_skips_denormalization : processDraw rCenter = some [DrawCmd.circle 0 0] := by
  decide

/-- Claim C4: in a successful `Process`, drawing is gated only by the fixed
0.2 threshold in two independent passes — the emitted commands are exactly the
joint-lines of the static table whose two endpoint scores both clear the
threshold, followed by a filled marker for each of the 17 keypoints whose own
score clears the threshold, independent of any incident line; consequently,
when every score is below the threshold, nothing is drawn. -/
theorem process_threshold_gating (s : List ℚ) (p : List (ℚ × ℚ)) (r : PoseEngine.Result)
    (hs : r.pose_keypoint_scores.get? 0 = some s)
    (hp : r.pose_keypoint_coords.get? 0 = some p)
    (hslen : s.length = 17) (hplen : p.length = 17) :
    processDraw r = some (((jointLineList.filter (linePass s)).map (lineOf p))
      ++ (((List.range 17).filter (markerPass s)).map (circleOf p)))
    ∧ ((s.all fun x => decide (x < score_threshold)) = true → processDraw r = some []) := by
  have h0 := processDraw_eq r s p hs hp (by omega) (by omega) (by omega)
  rw [hplen] at h0
  refine ⟨h0, fun hall => ?_⟩
  have hmem : ∀ i, i < 17 → s.getD i 0 < score_threshold := by
    intro i hi
    have h17 : i < s.length := by omega
    have hin : s.getD i 0 ∈ s := by
      rw [List.getD_eq_get?, List.get?_eq_get h17]
      exact List.get_mem s i h17
    exact of_decide_eq_true (List.all_eq_true.mp hall _ hin)
  have hl : jointLineList.filter (linePass s) = [] := by
    rw [List.filter_eq_nil]
    intro e he
    have h17 := jointLineList_indices_lt e he
    simp only [linePass, Bool.and_eq_true, decide_eq_true_eq]
    exact fun hc => absurd hc.1 (not_le.mpr (hmem e.1 h17.1))
  have hm : (List.range 17).filter (markerPass s) = [] := by
    rw [List.filter_eq_nil]
    intro i hi
    have h17 := List.mem_range.mp hi
    simp only [markerPass, decide_eq_true_eq]
    exact not_le.mpr (hmem i h17)
  rw [h0, hl, hm]
  rfl

/-- Witness for C4 at the all-below-threshold single-body result. -/
theorem process_threshold_gating_witness :
    processDraw rAllZero = some (((jointLineList.filter (linePass sAllZero)).map (lineOf pAllZero))
      ++ (((List.range 17).filter (markerPass sAllZero)).map (circleOf pAllZero)))
    ∧ ((sAllZero.all fun x => decide (x < score_threshold)) = true
        → processDraw rAllZero = some []) :=
  process_threshold_gating sAllZero pAllZero rAllZero rfl rfl (by decide) (by decide)

/-- Claim C5: when exactly two joints that are adjacent in the static topology
table clear the threshold and every other joint is below it, a successful
`Process` draws exactly one joint-line segment and exactly two markers. -/
theorem two_adjacent_joints_draw_counts (s : List ℚ) (p : List (ℚ × ℚ))
    (r : PoseEngine.Result) (a b : ℕ)
    (hs : r.pose_keypoint_scores.get? 0 = some s)
    (hp : r.pose_keypoint_coords.get? 0 = some p)
    (hslen : s.length = 17) (hplen : p.length = 17)
    (hadj : (a, b) ∈ jointLineList)
    (hpass : ∀ i, i < 17 → (s.getD i 0 ≥ score_threshold ↔ (i = a ∨ i = b))) :
    (processDraw r).isSome
    ∧ ((processDraw r).getD []).countP DrawCmd.isLine = 1
    ∧ ((processDraw r).getD []).countP DrawCmd.isCircle = 2 := by
  have h0 := processDraw_eq r s p hs hp (by omega) (by omega) (by omega)
  have hline : jointLineList.filter (linePass s)
      = jointLineList.filter
          (fun e => decide (e.1 = a ∨ e.1 = b) && decide (e.2 = a ∨ e.2 = b)) := by
    apply List.filter_congr
    intro e he
    have h17 := jointLineList_indices_lt e he
    simp only [linePass]
    rw [decide_eq_decide.mpr (hpass e.1 h17.1), decide_eq_decide.mpr (hpass e.2 h17.2)]
  have hmark : (List.range p.length).filter (markerPass s)
      = (List.range p.length).filter (fun i => decide (i = a ∨ i = b)) := by
    apply List.filter_congr
    intro i hi
    have h17 : i < 17 := by
      have := List.mem_range.mp hi
      omega
    simp only [markerPass]
    rw [decide_eq_decide.mpr (hpass i h17)]
  have key : ∀ x ∈ jointLineList,
      (jointLineList.filter
          (fun e => decide (e.1 = x.1 ∨ e.1 = x.2) && decide (e.2 = x.1 ∨ e.2 = x.2))).length = 1
        ∧ ((List.range 17).filter (fun i => decide (i = x.1 ∨ i = x.2))).length = 2 := by
    decide
  have hcounts : (jointLineList.filter
        (fun e => decide (e.1 = a ∨ e.1 = b) && decide (e.2 = a ∨ e.2 = b))).length = 1
      ∧ ((List.range 17).filter (fun i => decide (i = a ∨ i = b))).length = 2 :=
    key (a, b) hadj
  rw [h0]
  refine ⟨rfl, ?_, ?_⟩
  · simp only [Option.getD_some]
    rw [List.countP_append, countP_map_lineOf, countP_map_circleOf_isLine, hline, hcounts.1]
  · simp only [Option.getD_some]
    rw [List.countP_append, countP_map_lineOf_isCircle, countP_map_circleOf, hmark, hplen,
      hcounts.2]

/-- Witness for C5 with joints 0 and 2 (a face edge) confident. -/
theorem two_adjacent_joints_draw_counts_witness :
    (processDraw rTwoAdj).isSome
    ∧ ((processDraw rTwoAdj).getD []).countP DrawCmd.isLine = 1
    ∧ ((processDraw rTwoAdj).getD []).countP DrawCmd.isCircle = 2 :=
  two_adjacent_joints_draw_counts sTwoAdj pAllZero rTwoAdj 0 2 rfl rfl (by decide) (by decide)
    (by decide) (by decide)

/-- Claim C9 (amended): the unchecked indexing of `ImageProcessor::Process` is
in bounds — the error branch of the embedding's lookup is unreachable —
provided the engine result has at least one body whose keypoint score and
coordinate lists each have length at least 17 and whose score list is at least
as long as its coordinate list (the marker loop runs over the coordinate
list's length but reads the score list at every index). -/
theorem draw_in_bounds_under_amended_precondition (r : PoseEngine.Result)
    (s : List ℚ) (p : List (ℚ × ℚ))
    (hs : r.pose_keypoint_scores.get? 0 = some s)
    (hp : r.pose_keypoint_coords.get? 0 = some p)
    (hs17 : 17 ≤ s.length) (hp17 : 17 ≤ p.length) (hps : p.length ≤ s.length) :
    (processDraw r).isSome := by
  rw [processDraw_eq r s p hs hp hs17 hp17 hps]
  rfl

/-- Witness for C9's amended theorem. -/
theorem draw_in_bounds_witness : (processDraw rAllZero).isSome :=
  draw_in_bounds_under_amended_precondition rAllZero sAllZero pAllZero rfl rfl (by decide)
    (by decide) (by decide)

/-- Claim C9, counterexample to the claim as stated: a result satisfying the
claimed precondition (one body, score and coordinate lists each of length at
least 17) whose coordinate list is longer than its score list still reaches the
error branch — the marker loop reads `score_list[17]` past the end. -/
theorem draw_oob_despite_claimed_precondition :
    rMismatch.pose_keypoint_scores.get? 0 = some sAllZero
    ∧ rMismatch.pose_keypoint_coords.get? 0 = some pLong
    ∧ 17 ≤ sAllZero.length ∧ 17 ≤ pLong.length
    ∧ processDraw rMismatch = none :=
  ⟨rfl, rfl, by decide, by decide, by decide⟩
